import Mathlib

/-!
Shallow embedding of the slang interpreter (ChristianSchefe/slang).

Sources embedded:
- `src/parser.rs`: the delimiter reducer, statement splitter and expression
  parser (`reduce_brackets_and_parenths`, `get_statements`, `get_stmnt`,
  `get_expr`, `get_object`, `get_comma_separated_exprs`,
  `get_comma_separated_identifiers`, `find_matching`).
- `src/executor.rs`: the flat-store evaluator (`eval_expr`, `get_var`,
  `get_var_cloned`, `define_var`, `define_var_by_val`, `assign_var`).
- `src/main.rs`: the entry-point evaluator over the layered `Context`
  (`evaluate_expr`, `execute_statement`, `execute_statements`,
  `evaluate_binary_op`, `evaluate_unary_op`), embedded in namespace
  `Structs` because it is written against the AST of the absent
  `structs.rs`.

The crate files `tokenizer.rs`, `vars.rs`, `errors.rs` and `structs.rs`
are not part of the given sources; items from them (`Token`, `Keyword`,
`Operator::precedence`, the `VariableValue` arithmetic capability, `Display`,
`Context`/`Scope` and their methods) are reconstructed from their uses in the
given files and, where marked, modelled from the spec.

Possibly diverging loops (the evaluators) and the mutually recursive parser
are embedded with an explicit fuel argument; running out of fuel is the
distinguished outcome `outOfFuel`, never confused with a source error.
-/

namespace Slang

/-- Binary/unary operator kind. The enum lives in the absent `vars.rs`;
the constructor set is reconstructed from every use in `parser.rs` and
`main.rs`. -/
inductive Operator where
  | Add | Subtract | Multiply | Equal | NotEqual
  | LessThan | LessThanOrEqual | GreaterThan | GreaterThanOrEqual
  | Not | Negate | UnaryPlus
deriving DecidableEq, Repr

/-- Modelled from the spec: `Operator::precedence` lives in the absent
`vars.rs`. The spec fixes only the relative order that matters
(`1 + 2 * 3` groups as `1 + (2 * 3)`, so multiplication binds tighter than
addition, and the lowest value binds outermost); comparisons are given the
loosest binding. -/
def Operator.precedence : Operator → Nat
  | .Equal | .NotEqual | .LessThan | .LessThanOrEqual
  | .GreaterThan | .GreaterThanOrEqual => 1
  | .Add | .Subtract => 2
  | .Multiply => 3
  | .Not | .Negate | .UnaryPlus => 4

/-- Keyword tokens, reconstructed from every use in `parser.rs`
(`tokenizer.rs` is absent). -/
inductive Keyword where
  | Let | Return | Break | Continue | For | In | While | If | Else
deriving DecidableEq, Repr

/- The AST of `parser.rs` (`Statement`, `Expression`, `ReferenceExpr`)
together with the runtime value type `VariableValue` of the absent
`vars.rs` (its constructor set follows the spec's closed list: Unit,
Number, Boolean, String, List, Object, Function; `Function` holds the
parameter names and the body `Expression`, as used by `parser.rs`).
Rust's `Box` indirections are dropped; the `HashMap`s backing objects are
embedded as association lists. -/
mutual
inductive VariableValue where
  | Unit
  | Number (n : Int)
  | Boolean (b : Bool)
  | String (s : String)
  | List (l : List VariableValue)
  | Object (fields : List (String × VariableValue))
  | Function (params : List String) (body : Expression)

inductive Expression where
  | Value (v : VariableValue)
  | List (elems : List Expression)
  | Object (fields : List (String × Expression))
  | Reference (r : ReferenceExpr)
  | BinaryOperator (l r : Expression) (op : Operator)
  | UnaryOperator (e : Expression) (op : Operator)
  | Block (stmts : List Statement)
  | FunctionCall (f : Expression) (args : List Expression)
  | BuiltinFunctionCall (name : String) (target : Option VariableValue)
      (args : List VariableValue)
  | IfElse (cond thenBody : Expression) (elseBody : Option Expression)
  | ForLoop (var : String) (iter body : Expression)
  | WhileLoop (cond body : Expression)

inductive ReferenceExpr where
  | Variable (name : String)
  | Index (base idx : Expression)
  | Object (base : Expression) (field : String)

inductive Statement where
  | VariableDefinition (name : String) (e : Expression)
  | VariableAssignment (r : ReferenceExpr) (e : Expression)
  | Expr (e : Expression)
  | Return (e : Expression)
  | Break (e : Expression)
  | Continue
  | ImplicitReturn (e : Expression)
end

/-- Lexical tokens. The enum lives in the absent `tokenizer.rs`; the
constructor set is reconstructed from every use in `parser.rs` (including
the source's spelling `OpeningParethesis`). -/
inductive Token where
  | Value (v : VariableValue)
  | Identifier (name : String)
  | Keyword (k : Keyword)
  | Operator (op : Operator)
  | OperatorAssign (op : Operator)
  | Assign
  | Semicolon
  | Colon
  | Comma
  | Dot
  | OpeningParethesis
  | ClosingParethesis
  | OpeningBrace
  | ClosingBrace
  | OpeningBracket
  | ClosingBracket
  | VerticalBar

/-- `PartialParsed` from `parser.rs`: a raw token or a reduced delimiter
group. -/
inductive PartialParsed where
  | Token (t : Token)
  | Braces (inner : List PartialParsed)
  | Parentheses (inner : List PartialParsed)
  | Brackets (inner : List PartialParsed)
  | Closure (params : List String)

/-- Syntax errors (`errors.rs` is absent; the source type wraps a message
string). `outOfFuel` is the fuel device of this embedding, not a source
error. -/
inductive SyntaxError where
  | err (msg : String)
  | outOfFuel
deriving DecidableEq, Repr

/-- Runtime failures. `runtimeError` embeds the source's
`RuntimeError(String)`; `panicked` embeds a Rust panic (e.g. an
out-of-bounds `Vec` index), which aborts the process instead of returning
an error; `outOfFuel` is the fuel device of this embedding. -/
inductive Failure where
  | runtimeError (msg : String)
  | panicked (msg : String)
  | outOfFuel
deriving DecidableEq, Repr

/-- The running depth count of `find_matching` (`parser.rs` lines 548-556):
openers of all three kinds increment, closers of all three kinds decrement,
everything else leaves the depth unchanged. -/
def Token.indent_delta : Token → Int
  | .OpeningParethesis => 1
  | .OpeningBrace => 1
  | .OpeningBracket => 1
  | .ClosingParethesis => -1
  | .ClosingBrace => -1
  | .ClosingBracket => -1
  | _ => 0

/-- Loop of `find_matching`: scan left to right carrying the depth counter,
returning the first index whose token matches at depth 0. -/
def find_matching_aux (matching : Token → Bool) :
    List Token → Int → Nat → Option Nat
  | [], _, _ => none
  | tk :: rest, indent_level, i =>
    if indent_level = 0 ∧ matching tk then some i
    else find_matching_aux matching rest (indent_level + tk.indent_delta) (i + 1)

/-- `find_matching` from `parser.rs` (lines 539-559). The Rust version takes
a closure over `Option<&Token>`; inside the loop the argument is always
`Some`, so the predicate is embedded as `Token → Bool`. -/
def find_matching (t : List Token) (matching : Token → Bool) : Option Nat :=
  find_matching_aux matching t 0 0

/-- Splitting a list at separator positions, keeping empty segments: with
`n` separators the result has exactly `n + 1` segments, matching the
`for i in 0..=seps.len()` slice loops of `parser.rs`
(`get_statements`, `get_object`, `get_comma_separated_exprs`,
`get_comma_separated_identifiers`). -/
def split_at_seps (p : α → Bool) : List α → List (List α)
  | [] => [[]]
  | x :: xs =>
    if p x then [] :: split_at_seps p xs
    else
      match split_at_seps p xs with
      | s :: ss => (x :: s) :: ss
      | [] => [[x]]

/-- One segment of `get_comma_separated_identifiers` (`parser.rs` lines
519-535): the slice must be a single `Identifier` token. -/
def ident_of_segment : List Token → Except SyntaxError String
  | [.Identifier n] => .ok n
  | [_] => .error (.err "invalid identifier in list")
  | _ => .error (.err "invalid identifier list")

/-- `get_comma_separated_identifiers` from `parser.rs` (lines 506-537). -/
def get_comma_separated_identifiers (t : List Token) :
    Except SyntaxError (List String) :=
  (split_at_seps (fun tkn => tkn matches .Comma) t).mapM ident_of_segment

/-- `reduce_brackets_and_parenths` from `parser.rs` (lines 54-101),
written as recursion on the token list: the source's `while` loop processes
the head and jumps `i` past a matched closing delimiter, which here becomes
recursion on `rest.take closing` (the group's inside) and
`rest.drop (closing + 1)` (everything after the close). -/
def reduce_brackets_and_parenths : List Token → Except SyntaxError (List PartialParsed)
  | [] => .ok []
  | tk :: rest =>
    match tk with
    | .OpeningParethesis =>
      match find_matching rest (fun tkn => tkn matches .ClosingParethesis) with
      | none => .error (.err "No matching closing parenthesis!")
      | some closing => do
        let reduced ← reduce_brackets_and_parenths (rest.take closing)
        let tail ← reduce_brackets_and_parenths (rest.drop (closing + 1))
        .ok (.Parentheses reduced :: tail)
    | .OpeningBrace =>
      match find_matching rest (fun tkn => tkn matches .ClosingBrace) with
      | none => .error (.err "No matching closing brace!")
      | some closing => do
        let reduced ← reduce_brackets_and_parenths (rest.take closing)
        let tail ← reduce_brackets_and_parenths (rest.drop (closing + 1))
        .ok (.Braces reduced :: tail)
    | .OpeningBracket =>
      match find_matching rest (fun tkn => tkn matches .ClosingBracket) with
      | none => .error (.err "No matching closing bracket!")
      | some closing => do
        let reduced ← reduce_brackets_and_parenths (rest.take closing)
        let tail ← reduce_brackets_and_parenths (rest.drop (closing + 1))
        .ok (.Brackets reduced :: tail)
    | .VerticalBar =>
      match find_matching rest (fun tkn => tkn matches .VerticalBar) with
      | none => .error (.err "No matching closing bracket!")
      | some closing => do
        let reduced ← get_comma_separated_identifiers (rest.take closing)
        let tail ← reduce_brackets_and_parenths (rest.drop (closing + 1))
        .ok (.Closure reduced :: tail)
    | _ => do
      let tail ← reduce_brackets_and_parenths rest
      .ok (.Token tk :: tail)
termination_by t => t.length
decreasing_by
  all_goals simp [List.length_take, List.length_drop] <;> omega


/-- Loop of the operator split of `get_expr` (`parser.rs` lines 379-392):
scan every element, and on an operator token update the running winner
unless the winner's precedence is strictly below the new operator's
(`!lowest_precedence.is_some_and(|v| v < prec)`). The source keeps
`lowest_precedence` and `lowest_op` in two vars that are always
updated together, so `lowest_precedence` always equals the precedence of
the tracked operator and the pair is embedded as one
`Option (Nat × Operator)` accumulator. -/
def lowest_op_aux : List PartialParsed → Nat → Option (Nat × Operator) →
    Option (Nat × Operator)
  | [], _, acc => acc
  | x :: rest, i, acc =>
    match x with
    | .Token (.Operator op) =>
      match acc with
      | some (j, cur) =>
        if cur.precedence < op.precedence then
          lowest_op_aux rest (i + 1) (some (j, cur))
        else
          lowest_op_aux rest (i + 1) (some (i, op))
      | none => lowest_op_aux rest (i + 1) (some (i, op))
    | _ => lowest_op_aux rest (i + 1) acc

/-- The operator chosen as split point by `get_expr` (`parser.rs` lines
379-392). -/
def lowest_op_scan (t : List PartialParsed) : Option (Nat × Operator) :=
  lowest_op_aux t 0 none

/-- The node at index `j` is a top-level operator token carrying `op` (the
shape the scan of `get_expr` lines 379-392 reacts to). -/
def opAt (t : List PartialParsed) (j : Nat) (op : Operator) : Prop :=
  t.get? j = some (.Token (.Operator op))

/-- The slice `&t[a..b]`. -/
def slice (t : List α) (a b : Nat) : List α :=
  (t.drop a).take (b - a)

/- The fueled, mutually recursive statement/expression parser of
`parser.rs`. Each function peels one unit of fuel per call; the source's
slice-index loops over separator positions are embedded through
`split_at_seps` plus a per-segment recursion
(`stmnts_of_segments`, `exprs_of_segments`, `object_fields`). -/
mutual
/-- `get_statements` from `parser.rs` (lines 103-139): split at top-level
semicolons, parse each nonempty segment, return early (unchanged) when the
last node is a semicolon token, otherwise reclassify a trailing `Expr`
statement as `ImplicitReturn`, and fail with "empty block!" when there is
no statement at all. -/
def get_statements : Nat → List PartialParsed → Except SyntaxError (List Statement)
  | 0, _ => .error .outOfFuel
  | fuel + 1, t => do
    let segments :=
      (split_at_seps (fun tkn => tkn matches .Token .Semicolon) t).filter
        (fun s => !s.isEmpty)
    let statements ← stmnts_of_segments fuel segments
    match t.getLast? with
    | some (.Token .Semicolon) => .ok statements
    | _ =>
      match statements.getLast? with
      | some (.Expr last_expr) =>
        .ok (statements.dropLast ++ [.ImplicitReturn last_expr])
      | some _ => .ok statements
      | none => .error (.err "empty block!")
termination_by structural fuel => fuel

/-- The per-segment loop of `get_statements` (`parser.rs` lines 116-125):
parse each slice with `get_stmnt`, in order. -/
def stmnts_of_segments : Nat → List (List PartialParsed) →
    Except SyntaxError (List Statement)
  | _, [] => .ok []
  | 0, _ :: _ => .error .outOfFuel
  | fuel + 1, s :: rest => do
    let stmnt ← get_stmnt fuel s
    let others ← stmnts_of_segments fuel rest
    .ok (stmnt :: others)
termination_by structural fuel => fuel

/-- `get_stmnt` from `parser.rs` (lines 141-214): leading `let`,
`return`, `break`, `continue` forms, then a top-level `=`, then a
top-level compound assignment, and otherwise a bare expression. -/
def get_stmnt : Nat → List PartialParsed → Except SyntaxError Statement
  | 0, _ => .error .outOfFuel
  | fuel + 1, t =>
    if t.get? 0 matches some (.Token (.Keyword .Let)) then
      match t.get? 1, t.get? 2 with
      | some (.Token (.Identifier var_name)), some (.Token .Assign) =>
        (get_expr fuel (t.drop 3)).map (fun expr => .VariableDefinition var_name expr)
      | _, _ => .error (.err "Invalid VariableDefinition Statement")
    else if t.get? 0 matches some (.Token (.Keyword .Return)) then
      if t.length > 1 then (get_expr fuel (t.drop 1)).map .Return
      else .ok (.Return (.Value .Unit))
    else if t.get? 0 matches some (.Token (.Keyword .Break)) then
      if t.length > 1 then (get_expr fuel (t.drop 1)).map .Break
      else .ok (.Break (.Value .Unit))
    else if t.get? 0 matches some (.Token (.Keyword .Continue)) then
      if t.length > 1 then .error (.err "invalid statement after continue")
      else .ok .Continue
    else
      match t.findIdx? (fun tkn => tkn matches .Token .Assign) with
      | some i => do
        let expr ← get_expr fuel (t.take i)
        let val_expr ← get_expr fuel (t.drop (i + 1))
        match expr with
        | .Reference ref_expr => .ok (.VariableAssignment ref_expr val_expr)
        | _ => .error (.err "can only assign to a reference")
      | none =>
        match t.enum.findSome? (fun p =>
            match p with
            | (i, .Token (.OperatorAssign op)) => some (i, op)
            | _ => none) with
        | some (i, op) => do
          let expr ← get_expr fuel (t.take i)
          let val_expr ← get_expr fuel (t.drop (i + 1))
          match expr with
          | .Reference ref_expr =>
            .ok (.VariableAssignment ref_expr
              (.BinaryOperator (.Reference ref_expr) val_expr op))
          | _ => .error (.err "can only assign to a reference")
        | none => (get_expr fuel t).map .Expr
termination_by structural fuel => fuel

/-- `get_expr` from `parser.rs` (lines 216-443): length 0/1 base cases,
then closure literals, `for`, `while`, `if`/`else`, the
lowest-precedence operator split, and finally the trailing call / index /
field-access shapes. -/
def get_expr : Nat → List PartialParsed → Except SyntaxError Expression
  | 0, _ => .error .outOfFuel
  | fuel + 1, t =>
    if t.length = 0 then .error (.err "Empty expr")
    else if t.length = 1 then
      match t with
      | [.Braces b] =>
        if b.length = 0 then .ok (.Value (.Object []))
        else if b.any (fun v => v matches .Token .Colon) then get_object fuel b
        else (get_statements fuel b).map (fun v => .Block v)
      | [.Parentheses b] =>
        if b.length = 0 then .ok (.Value .Unit)
        else get_expr fuel b
      | [.Brackets b] =>
        (if b.length > 0 then get_comma_separated_exprs fuel b
         else .ok []).map (fun v => .List v)
      | [.Token b] =>
        match b with
        | .Value v => .ok (.Value v)
        | .Identifier v => .ok (.Reference (.Variable v))
        | _ => .error (.err "Not a valid token expr")
      | _ => .error (.err "Not a valid alone closure")
    else if t.any (fun tkn => tkn matches .Closure _) then
      match t.get? 0 with
      | some (.Closure args) =>
        (get_expr fuel (t.drop 1)).map (fun expr => .Value (.Function args expr))
      | _ => .error (.err "invalid closure expresion")
    else if t.any (fun tkn => tkn matches .Token (.Keyword .For)) then
      match t.get? 0, t.get? 1, t.get? 2 with
      | some (.Token (.Keyword .For)), some (.Token (.Identifier var_name)),
          some (.Token (.Keyword .In)) =>
        if t.length < 5 then .error (.err "invalid for loop")
        else do
          let iterator ← get_expr fuel (slice t 3 (t.length - 1))
          let body_expr ← get_expr fuel (slice t (t.length - 1) t.length)
          match body_expr with
          | .Block body => .ok (.ForLoop var_name iterator (.Block body))
          | .Value (.Object map) =>
            if map.length = 0 then .ok (.ForLoop var_name iterator (.Block []))
            else .error (.err "invalid for loop body")
          | _ => .error (.err "invalid for loop body")
      | _, _, _ => .error (.err "invalid for loop")
    else if t.any (fun tkn => tkn matches .Token (.Keyword .While)) then
      if t.get? 0 matches some (.Token (.Keyword .While)) then
        if t.length < 3 then .error (.err "invalid while loop")
        else do
          let condition ← get_expr fuel (slice t 1 (t.length - 1))
          let body_expr ← get_expr fuel (slice t (t.length - 1) t.length)
          match body_expr with
          | .Block body => .ok (.WhileLoop condition (.Block body))
          | .Value (.Object map) =>
            if map.length = 0 then .ok (.WhileLoop condition (.Block []))
            else .error (.err "invalid while loop body")
          | _ => .error (.err "invalid while loop body")
      else .error (.err "invalid while loop")
    else
      match t.findIdx? (fun tkn => tkn matches .Token (.Keyword .If)) with
      | some if_i =>
        match t.findIdx? (fun tkn => tkn matches .Token (.Keyword .Else)) with
        | some else_pos =>
          if t.length < 5 then .error (.err "invalid if statement")
          else do
            let cond ← get_expr fuel (slice t (if_i + 1) (else_pos - 1))
            let e1 ← get_expr fuel (slice t (else_pos - 1) else_pos)
            let e2 ← get_expr fuel (slice t (else_pos + 1) (else_pos + 2))
            match e1, e2 with
            | .Block b1, .Block b2 =>
              .ok (.IfElse cond (.Block b1) (some (.Block b2)))
            | _, _ => .error (.err "invalid if else body")
        | none =>
          if t.length < 3 then .error (.err "invalid if statement")
          else do
            let cond ← get_expr fuel (slice t (if_i + 1) (t.length - 1))
            let e1 ← get_expr fuel (slice t (t.length - 1) t.length)
            match e1 with
            | .Block b1 => .ok (.IfElse cond (.Block b1) none)
            | _ => .error (.err "invalid if body")
      | none =>
        match lowest_op_scan t with
        | some (i, op) =>
          if i = 0 then do
            let e ← get_expr fuel (t.drop (i + 1))
            let unary_op ←
              match op with
              | .Add => .ok Operator.UnaryPlus
              | .Subtract => .ok Operator.Negate
              | .Not => .ok Operator.Not
              | _ => .error (.err "no such unary operator")
            .ok (.UnaryOperator e unary_op)
          else do
            let e1 ← get_expr fuel (t.take i)
            let e2 ← get_expr fuel (t.drop (i + 1))
            .ok (.BinaryOperator e1 e2 op)
        | none =>
          match t.getLast? with
          | some (.Parentheses p) => do
            let f ← get_expr fuel (t.take (t.length - 1))
            let args ←
              if p.length > 0 then get_comma_separated_exprs fuel p
              else .ok []
            .ok (.FunctionCall f args)
          | some (.Brackets p) => do
            let f ← get_expr fuel (t.take (t.length - 1))
            let index ← get_expr fuel p
            .ok (.Reference (.Index f index))
          | _ =>
            match t.get? (t.length - 2), t.getLast? with
            | some (.Token .Dot), some (.Token (.Identifier var_name)) => do
              let f ← get_expr fuel (t.take (t.length - 2))
              .ok (.Reference (.Object f var_name))
            | _, _ => .error (.err "Not a valid expr. Are you missing a semicolon?")
termination_by structural fuel => fuel

/-- `get_object` from `parser.rs` (lines 445-478): comma-split the braced
contents into `identifier : expr` fields. The source inserts into a
`HashMap`; the embedding keeps the fields as an ordered association list. -/
def get_object : Nat → List PartialParsed → Except SyntaxError Expression
  | 0, _ => .error .outOfFuel
  | fuel + 1, t => do
    let segments := split_at_seps (fun tkn => tkn matches .Token .Comma) t
    let fields ← object_fields fuel segments
    .ok (.Object fields)
termination_by structural fuel => fuel

/-- The per-segment loop of `get_object` (`parser.rs` lines 458-476). The
source indexes `t[start]` and `t[start + 1]` directly (panicking on a
segment shorter than two nodes); the embedding routes those shapes to the
same "invalid variable name" failure. -/
def object_fields : Nat → List (List PartialParsed) →
    Except SyntaxError (List (String × Expression))
  | _, [] => .ok []
  | 0, _ :: _ => .error .outOfFuel
  | fuel + 1, seg :: rest =>
    match seg.get? 0, seg.get? 1 with
    | some (.Token (.Identifier var_name)), some (.Token .Colon) => do
      let expr ← get_expr fuel (seg.drop 2)
      let others ← object_fields fuel rest
      .ok ((var_name, expr) :: others)
    | _, _ => .error (.err "invalid variable name")
termination_by structural fuel => fuel

/-- `get_comma_separated_exprs` from `parser.rs` (lines 480-504): split at
top-level commas and parse every segment (an empty segment fails inside
`get_expr` with "Empty expr", as in the source). -/
def get_comma_separated_exprs : Nat → List PartialParsed →
    Except SyntaxError (List Expression)
  | 0, _ => .error .outOfFuel
  | fuel + 1, t =>
    exprs_of_segments fuel (split_at_seps (fun tkn => tkn matches .Token .Comma) t)
termination_by structural fuel => fuel

/-- The per-segment loop of `get_comma_separated_exprs` (`parser.rs` lines
493-502). -/
def exprs_of_segments : Nat → List (List PartialParsed) →
    Except SyntaxError (List Expression)
  | _, [] => .ok []
  | 0, _ :: _ => .error .outOfFuel
  | fuel + 1, seg :: rest => do
    let e ← get_expr fuel seg
    let others ← exprs_of_segments fuel rest
    .ok (e :: others)
termination_by structural fuel => fuel
end


/-! ### The flat-store evaluator of `executor.rs` -/

/-- The flat variable store of `executor.rs`
(`HashMap<String, VariableValue>`), embedded as an association list. -/
abbrev Store := List (String × VariableValue)

/-- `HashMap::contains_key`. -/
def Store.contains_key (s : Store) (k : String) : Bool :=
  (s.lookup k).isSome

/-- `HashMap::insert`: replace the binding if the key is present, append it
otherwise. -/
def Store.insert : Store → String → VariableValue → Store
  | [], k, v => [(k, v)]
  | (k', v') :: rest, k, v =>
    if k' = k then (k, v) :: rest else (k', v') :: Store.insert rest k v

/-- `li.get(i as usize)` for a signed index: a negative `i` wraps to a huge
`usize` in Rust, so it is out of bounds exactly like `i ≥ li.len()`. -/
def list_index (li : List VariableValue) (i : Int) : Option VariableValue :=
  if i < 0 then none else li.get? i.toNat

/-- In-place update of slot `i` (only used after `list_index` succeeded). -/
def list_set (li : List VariableValue) (i : Int) (v : VariableValue) :
    List VariableValue :=
  if i < 0 then li else li.set i.toNat v

/-- Update of an association-list field (only used after the lookup
succeeded). -/
def fields_set : List (String × VariableValue) → String → VariableValue →
    List (String × VariableValue)
  | [], _, _ => []
  | (k', v') :: rest, k, v =>
    if k' = k then (k, v) :: rest else (k', v') :: fields_set rest k v

/-- Modelled from the spec: the `VariableValue` arithmetic capability lives
in the absent `vars.rs`; the spec treats it as an external collaborator
("the primitive value arithmetic/comparison operations themselves") and
fixes only Number arithmetic through its examples. Non-Number operands are a
runtime failure ("invalid operator applied to operand types"). -/
def VariableValue.add : VariableValue → VariableValue → Except Failure VariableValue
  | .Number a, .Number b => .ok (.Number (a + b))
  | _, _ => .error (.runtimeError "invalid operands")

/-- Modelled from the spec: see `VariableValue.add`. -/
def VariableValue.subtract : VariableValue → VariableValue → Except Failure VariableValue
  | .Number a, .Number b => .ok (.Number (a - b))
  | _, _ => .error (.runtimeError "invalid operands")

/-- Modelled from the spec: see `VariableValue.add`. -/
def VariableValue.multiply : VariableValue → VariableValue → Except Failure VariableValue
  | .Number a, .Number b => .ok (.Number (a * b))
  | _, _ => .error (.runtimeError "invalid operands")

/-- Modelled from the spec: see `VariableValue.add`. -/
def VariableValue.equals : VariableValue → VariableValue → Except Failure VariableValue
  | .Number a, .Number b => .ok (.Boolean (a = b))
  | .Boolean a, .Boolean b => .ok (.Boolean (a = b))
  | .String a, .String b => .ok (.Boolean (a = b))
  | _, _ => .error (.runtimeError "invalid operands")

/-- Modelled from the spec: see `VariableValue.add`. -/
def VariableValue.not_equals : VariableValue → VariableValue → Except Failure VariableValue
  | .Number a, .Number b => .ok (.Boolean (a ≠ b))
  | .Boolean a, .Boolean b => .ok (.Boolean (a ≠ b))
  | .String a, .String b => .ok (.Boolean (a ≠ b))
  | _, _ => .error (.runtimeError "invalid operands")

/-- Modelled from the spec: see `VariableValue.add`. -/
def VariableValue.less_than : VariableValue → VariableValue → Except Failure VariableValue
  | .Number a, .Number b => .ok (.Boolean (a < b))
  | _, _ => .error (.runtimeError "invalid operands")

/-- Modelled from the spec: see `VariableValue.add`. -/
def VariableValue.less_than_or_equal : VariableValue → VariableValue →
    Except Failure VariableValue
  | .Number a, .Number b => .ok (.Boolean (a ≤ b))
  | _, _ => .error (.runtimeError "invalid operands")

/-- Modelled from the spec: see `VariableValue.add`. -/
def VariableValue.greater_than : VariableValue → VariableValue → Except Failure VariableValue
  | .Number a, .Number b => .ok (.Boolean (b < a))
  | _, _ => .error (.runtimeError "invalid operands")

/-- Modelled from the spec: see `VariableValue.add`. -/
def VariableValue.greater_than_or_equal : VariableValue → VariableValue →
    Except Failure VariableValue
  | .Number a, .Number b => .ok (.Boolean (b ≤ a))
  | _, _ => .error (.runtimeError "invalid operands")

/-- Modelled from the spec: see `VariableValue.add`. -/
def VariableValue.not : VariableValue → Except Failure VariableValue
  | .Boolean a => .ok (.Boolean (!a))
  | _ => .error (.runtimeError "invalid operand")

/-- Modelled from the spec: see `VariableValue.add`. -/
def VariableValue.negate : VariableValue → Except Failure VariableValue
  | .Number a => .ok (.Number (-a))
  | _ => .error (.runtimeError "invalid operand")

/-- Modelled from the spec: see `VariableValue.add`. -/
def VariableValue.unary_plus : VariableValue → Except Failure VariableValue
  | .Number a => .ok (.Number a)
  | _ => .error (.runtimeError "invalid operand")

/-- `evaluate_binary_op` from `main.rs` (lines 169-186), the only
definition of this function in the given sources; `executor.rs` calls it
through `use crate::*`. Operator kinds with no binary meaning fail naming
the operator. -/
def evaluate_binary_op (a b : VariableValue) (op : Operator) :
    Except Failure VariableValue :=
  match op with
  | .Add => VariableValue.add a b
  | .Subtract => VariableValue.subtract a b
  | .Multiply => VariableValue.multiply a b
  | .Equal => VariableValue.equals a b
  | .NotEqual => VariableValue.not_equals a b
  | .LessThan => VariableValue.less_than a b
  | .LessThanOrEqual => VariableValue.less_than_or_equal a b
  | .GreaterThan => VariableValue.greater_than a b
  | .GreaterThanOrEqual => VariableValue.greater_than_or_equal a b
  | _ => .error (.runtimeError "is not a binary operator!")

/-- `evaluate_unary_op` from `main.rs` (lines 188-195). -/
def evaluate_unary_op (a : VariableValue) (op : Operator) :
    Except Failure VariableValue :=
  match op with
  | .Not => VariableValue.not a
  | .Negate => VariableValue.negate a
  | .UnaryPlus => VariableValue.unary_plus a
  | _ => .error (.runtimeError "is not a unary operator!")

/- The fueled evaluator core of `executor.rs`. `eval_expr` never inserts
into the store (reads clone, and `VariableValue::call` does not receive the
store), so it takes the store by value and returns only the result. -/
mutual
/-- `eval_expr` from `executor.rs` (lines 30-67). Two notes on fidelity:
`executor.rs` was written against an `Expression` whose `IfElse` carries a
mandatory else branch; the else-absent case, unrepresentable there but
present in `parser.rs`'s AST, follows the spec ("Unit if no else arm and
condition is false"). The statement kinds `executor.rs` does not match
(`Block`, `BuiltinFunctionCall`, `ForLoop`, `WhileLoop`) hit the source's
catch-all `_ => Ok(VariableValue::Unit)`. -/
def eval_expr : Nat → Store → Expression → Except Failure VariableValue
  | 0, _, _ => .error .outOfFuel
  | fuel + 1, vars, expr =>
    match expr with
    | .List list => (eval_exprs fuel vars list).map .List
    | .Object fields => (eval_fields fuel vars fields).map .Object
    | .Value var => .ok var
    | .Reference ref_expr => get_var_cloned fuel vars ref_expr
    | .FunctionCall func_expr params => do
      let f ← eval_expr fuel vars func_expr
      let args ← eval_exprs fuel vars params
      VariableValue.call fuel f args
    | .BinaryOperator a b op => do
      let va ← eval_expr fuel vars a
      let vb ← eval_expr fuel vars b
      evaluate_binary_op va vb op
    | .UnaryOperator a op => do
      let va ← eval_expr fuel vars a
      evaluate_unary_op va op
    | .IfElse cond_expr if_expr else_expr => do
      let c ← eval_expr fuel vars cond_expr
      match c with
      | .Boolean cond =>
        if cond then eval_expr fuel vars if_expr
        else
          match else_expr with
          | some e => eval_expr fuel vars e
          | none => .ok .Unit
      | _ => .error (.runtimeError "condition is not a boolean")
    | _ => .ok .Unit
termination_by structural fuel => fuel

/-- The `collect::<Result<Vec<_>, _>>` loops of `eval_expr` over expression
lists (list literals and call arguments), evaluated left to right. -/
def eval_exprs : Nat → Store → List Expression → Except Failure (List VariableValue)
  | _, _, [] => .ok []
  | 0, _, _ :: _ => .error .outOfFuel
  | fuel + 1, vars, e :: rest => do
    let v ← eval_expr fuel vars e
    let vs ← eval_exprs fuel vars rest
    .ok (v :: vs)
termination_by structural fuel => fuel

/-- The field-collection loop of `eval_expr`'s `Object` arm. -/
def eval_fields : Nat → Store → List (String × Expression) →
    Except Failure (List (String × VariableValue))
  | _, _, [] => .ok []
  | 0, _, _ :: _ => .error .outOfFuel
  | fuel + 1, vars, (key, e) :: rest => do
    let v ← eval_expr fuel vars e
    let vs ← eval_fields fuel vars rest
    .ok ((key, v) :: vs)
termination_by structural fuel => fuel

/-- `get_var_cloned` from `executor.rs` (lines 138-202). -/
def get_var_cloned : Nat → Store → ReferenceExpr → Except Failure VariableValue
  | 0, _, _ => .error .outOfFuel
  | fuel + 1, vars, var_expr =>
    match var_expr with
    | .Variable var =>
      match vars.lookup var with
      | some val => .ok val
      | none => .error (.runtimeError ("Variable '" ++ var ++ "' is not defined"))
    | .Index list_expr index_expr => do
      let index ← eval_expr fuel vars index_expr
      match list_expr with
      | .Reference ref_expr => do
        let li ← get_var_cloned fuel vars ref_expr
        match li, index with
        | .List li, .Number i =>
          match list_index li i with
          | some val => .ok val
          | none => .error (.runtimeError "Index is out of bounds")
        | _, _ => .error (.runtimeError "Variable is not a list")
      | _ => do
        let li ← eval_expr fuel vars list_expr
        match li, index with
        | .List li, .Number i =>
          match list_index li i with
          | some val => .ok val
          | none => .error (.runtimeError "Index is out of bounds")
        | _, _ => .error (.runtimeError "Variable is not a list")
    | .Object object_expr index_expr =>
      match object_expr with
      | .Reference ref_expr => do
        let object ← get_var_cloned fuel vars ref_expr
        match object with
        | .Object obj =>
          match obj.lookup index_expr with
          | some val => .ok val
          | none => .error (.runtimeError "Not a field of the object")
        | _ => .error (.runtimeError "Variable is not an object")
      | _ => do
        let object ← eval_expr fuel vars object_expr
        match object with
        | .Object obj =>
          match obj.lookup index_expr with
          | some val => .ok val
          | none => .error (.runtimeError "Not a field of the object")
        | _ => .error (.runtimeError "Variable is not an object")
termination_by structural fuel => fuel

/-- Modelled from the spec: `VariableValue::call` lives in the absent
`vars.rs`. Per §4.5 the callee must be a Function value, each
parameter name is bound to the corresponding evaluated argument value, the
body is evaluated in that environment, and an arity mismatch is treated as
an error condition; calling a non-function value is a runtime error.
`executor.rs` passes no store to `call`, so the body sees only the
parameter bindings. -/
def VariableValue.call : Nat → VariableValue → List VariableValue →
    Except Failure VariableValue
  | 0, _, _ => .error .outOfFuel
  | fuel + 1, .Function params body, values =>
    if params.length = values.length then
      eval_expr fuel (params.zip values) body
    else .error (.runtimeError "wrong number of arguments")
  | _ + 1, _, _ => .error (.runtimeError "cannot call a non-function value")
termination_by structural fuel => fuel
end

/-- `get_var` from `executor.rs` (lines 91-137): resolve a reference to its
slot and return the slot's current value (the source returns the `&mut`
slot itself; writing through it is embedded separately as `put_back`). -/
def get_var (fuel : Nat) (vars : Store) : ReferenceExpr →
    Except Failure VariableValue
  | .Variable var =>
    match vars.lookup var with
    | some val => .ok val
    | none => .error (.runtimeError ("Variable '" ++ var ++ "' is not defined"))
  | .Index list_expr index_expr => do
    let index ← eval_expr fuel vars index_expr
    match list_expr with
    | .Reference ref_expr => do
      let li ← get_var fuel vars ref_expr
      match li, index with
      | .List li, .Number i =>
        match list_index li i with
        | some val => .ok val
        | none => .error (.runtimeError "Index is out of bounds")
      | _, _ => .error (.runtimeError "Variable is not a list")
    | _ => .error (.runtimeError "Variable is not a ref")
  | .Object object_expr index_expr =>
    match object_expr with
    | .Reference ref_expr => do
      let object ← get_var fuel vars ref_expr
      match object with
      | .Object obj =>
        match obj.lookup index_expr with
        | some val => .ok val
        | none => .error (.runtimeError "Not a field of the object")
      | _ => .error (.runtimeError "Variable is not an object")
    | _ => .error (.runtimeError "Variable is not a ref")

/-- Writing a new value through the `&mut` slot returned by `get_var`: the
same path traversal as `get_var`, rebuilding each enclosing container on
the way back. Only reached after `get_var` on the same path succeeded. -/
def put_back (fuel : Nat) (vars : Store) : ReferenceExpr → VariableValue →
    Except Failure Store
  | .Variable var, val =>
    match vars.lookup var with
    | some _ => .ok (vars.insert var val)
    | none => .error (.runtimeError ("Variable '" ++ var ++ "' is not defined"))
  | .Index list_expr index_expr, val => do
    let index ← eval_expr fuel vars index_expr
    match list_expr with
    | .Reference ref_expr => do
      let li ← get_var fuel vars ref_expr
      match li, index with
      | .List li, .Number i =>
        if (list_index li i).isSome then
          put_back fuel vars ref_expr (.List (list_set li i val))
        else .error (.runtimeError "Index is out of bounds")
      | _, _ => .error (.runtimeError "Variable is not a list")
    | _ => .error (.runtimeError "Variable is not a ref")
  | .Object object_expr field, val =>
    match object_expr with
    | .Reference ref_expr => do
      let object ← get_var fuel vars ref_expr
      match object with
      | .Object obj =>
        if (obj.lookup field).isSome then
          put_back fuel vars ref_expr (.Object (fields_set obj field val))
        else .error (.runtimeError "Not a field of the object")
      | _ => .error (.runtimeError "Variable is not an object")
    | _ => .error (.runtimeError "Variable is not a ref")

/-- `define_var_by_val` from `executor.rs` (lines 78-89). The pair result
makes the `&mut` store explicit: on failure the store is returned
untouched. -/
def define_var_by_val (vars : Store) (var : String) (val : VariableValue) :
    Store × Except Failure VariableValue :=
  if vars.contains_key var then
    (vars, .error (.runtimeError "Variable is already defined"))
  else
    (vars.insert var val, .ok .Unit)

/-- `define_var` from `executor.rs` (lines 69-76). -/
def define_var (fuel : Nat) (vars : Store) (var : String) (expr : Expression) :
    Store × Except Failure VariableValue :=
  match eval_expr fuel vars expr with
  | .error e => (vars, .error e)
  | .ok val => define_var_by_val vars var val

/-- `assign_var` from `executor.rs` (lines 204-256). Writing through the
`&mut` slots of the `Index`/`Object` arms is embedded via `put_back`. -/
def assign_var (fuel : Nat) (vars : Store) (var_expr : ReferenceExpr)
    (expr : Expression) : Store × Except Failure VariableValue :=
  match eval_expr fuel vars expr with
  | .error e => (vars, .error e)
  | .ok val =>
    match var_expr with
    | .Variable var =>
      if !vars.contains_key var then
        (vars, .error (.runtimeError "Variable is not defined"))
      else
        (vars.insert var val, .ok .Unit)
    | .Index list_expr index_expr =>
      match eval_expr fuel vars index_expr with
      | .error e => (vars, .error e)
      | .ok index =>
        match list_expr with
        | .Reference ref_expr =>
          match get_var fuel vars ref_expr with
          | .error e => (vars, .error e)
          | .ok (.List vec) =>
            match index with
            | .Number i =>
              if (list_index vec i).isSome then
                match put_back fuel vars ref_expr (.List (list_set vec i val)) with
                | .ok s2 => (s2, .ok .Unit)
                | .error e => (vars, .error e)
              else (vars, .error (.runtimeError "Index is out of bound"))
            | _ => (vars, .error (.runtimeError "Variable is not a list"))
          | .ok _ => (vars, .error (.runtimeError "Variable is not a list"))
        | _ => (vars, .error (.runtimeError "Variable is not reference"))
    | .Object object_expr field =>
      match object_expr with
      | .Reference ref_expr =>
        match get_var fuel vars ref_expr with
        | .error e => (vars, .error e)
        | .ok (.Object scope) =>
          if (scope.lookup field).isSome then
            match put_back fuel vars ref_expr (.Object (fields_set scope field val)) with
            | .ok s2 => (s2, .ok .Unit)
            | .error e => (vars, .error e)
          else (vars, .error (.runtimeError "Not a field of the object"))
        | .ok _ => (vars, .error (.runtimeError "Variable is not an object"))
      | _ => (vars, .error (.runtimeError "Variable is not a reference"))


/-! ### The entry-point evaluator of `main.rs`

`main.rs` is written against the AST of the absent `structs.rs`
(`mod structs; mod tokenizer;` are its only modules), which differs from
`parser.rs`'s AST: statements and expressions carry plain names for
references and calls, and `main.rs`'s matches over them have no catch-all,
so the constructor sets below are exactly the ones its matches list. The
whole embedding of that file lives in this namespace. -/

namespace Structs

/- The AST used by `main.rs`. `Statement`'s constructors are exactly the
arms of `execute_statement` (`main.rs` lines 66-104), `Expression`'s exactly
the arms of `evaluate_expr` (lines 110-165); `VariableValue`'s constructor
set follows the spec's closed list. -/
mutual
inductive VariableValue where
  | Unit
  | Number (n : Int)
  | Boolean (b : Bool)
  | String (s : String)
  | List (l : List VariableValue)
  | Object (fields : List (String × VariableValue))
  | Function (params : List String) (body : Expression)

inductive Expression where
  | Value (v : VariableValue)
  | Block (stmts : List Statement)
  | BinaryOperator (l r : Expression) (op : Operator)
  | UnaryOperator (e : Expression) (op : Operator)
  | Reference (var_name : String)
  | FunctionCall (function_name : String) (params : List Expression)
  | IfElse (cond if_body : Expression) (maybe_else_body : Option Expression)

inductive Statement where
  | Empty
  | VariableDefinition (name : String) (e : Expression)
  | ReturnStatement (e : Expression)
  | ExpressionStatement (e : Expression)
  | FunctionDefinition (name : String) (params : List String) (body : Expression)
  | VariableAssignment (name : String) (e : Expression)
  | WhileLoop (cond body : Expression)
  | ForLoop (stmts : Statement × Statement) (cond body : Expression)
end

/-- One lexical binding frame (spec §3 Scope), an association list. -/
abbrev Scope := List (String × VariableValue)

/-- `Context` from the absent `structs.rs`; the field names `cur_layer` and
`layers` are fixed by the literal `Context { cur_layer: 0, layers:
vec![Scope::new()] }` in `main.rs` (lines 19-22). -/
structure Context where
  cur_layer : Nat
  layers : List Scope

/-- Insert into one scope, replacing an existing binding. -/
def scope_insert : Scope → String → VariableValue → Scope
  | [], k, v => [(k, v)]
  | (k', v') :: rest, k, v =>
    if k' = k then (k, v) :: rest else (k', v') :: scope_insert rest k v

/-- Modelled from the spec: `Context::try_get_var` lives in the absent
`structs.rs`. Per §3, lookups "search from the innermost (current) layer
outward to the outermost"; the result carries the index of the layer that
held the binding (matched as `Some((_, value))` in `main.rs`). This is the
search from layer `i` downward. -/
def Context.try_get_var_from (c : Context) (name : String) : Nat →
    Option (Nat × VariableValue)
  | 0 =>
    match c.layers.get? 0 with
    | some layer => (layer.lookup name).map (fun v => (0, v))
    | none => none
  | i + 1 =>
    match c.layers.get? (i + 1) with
    | some layer =>
      match layer.lookup name with
      | some v => some (i + 1, v)
      | none => c.try_get_var_from name i
    | none => c.try_get_var_from name i

/-- Modelled from the spec: see `Context.try_get_var_from`. -/
def Context.try_get_var (c : Context) (name : String) :
    Option (Nat × VariableValue) :=
  c.try_get_var_from name c.cur_layer

/-- Modelled from the spec: `Context::get_var` resolves a plain name
through the layer chain, cloning the value; a missing name is the
"undefined variable reference" runtime error (§7). -/
def Context.get_var (c : Context) (name : String) : Except Failure VariableValue :=
  match c.try_get_var name with
  | some (_, v) => .ok v
  | none => .error (.runtimeError ("Variable '" ++ name ++ "' is not defined"))

/-- Modelled from the spec: `Context::define_var` inserts into the current
layer only, and redefinition of an existing name in the same layer is an
error (§3 Scope: "insertion-once-per-name semantics"). -/
def Context.define_var (c : Context) (name : String) (val : VariableValue) :
    Except Failure Context :=
  match c.layers.get? c.cur_layer with
  | some layer =>
    if (layer.lookup name).isSome then
      .error (.runtimeError "Variable is already defined")
    else
      .ok { c with layers := c.layers.set c.cur_layer ((name, val) :: layer) }
  | none => .error (.panicked "current layer out of bounds")

/-- Modelled from the spec: `Context::set_var` writes the innermost
existing binding of the name (no implicit creation, §4.5). -/
def Context.set_var (c : Context) (name : String) (val : VariableValue) :
    Except Failure Context :=
  match c.try_get_var name with
  | some (i, _) =>
    match c.layers.get? i with
    | some layer =>
      .ok { c with layers := c.layers.set i (scope_insert layer name val) }
    | none => .error (.panicked "layer out of bounds")
  | none => .error (.runtimeError ("Variable '" ++ name ++ "' is not defined"))

/-- Modelled from the spec: a block pushes one fresh innermost layer
(§4.5 Block evaluation). -/
def Context.create_block_context (c : Context) : Except Failure Context :=
  .ok { cur_layer := c.cur_layer + 1, layers := c.layers ++ [[]] }

/-- Modelled from the spec: on block exit the block's own layer is
discarded; mutations of pre-existing names happened in the outer layers
(through `set_var`) and survive, new names do not leak (§4.5, §9). -/
def Context.apply_block_context (c : Context) (inner : Context) :
    Except Failure Context :=
  .ok { cur_layer := c.cur_layer, layers := inner.layers.dropLast }

/-- Modelled from the spec: a call gets a fresh call-local Context holding
only the function's own binding, so "recursive self-reference remains
visible" (§4.5 Function call evaluation). -/
def Context.create_fn_context (c : Context) (function_name : String) :
    Except Failure Context :=
  match c.try_get_var function_name with
  | some (_, v) => .ok { cur_layer := 0, layers := [[(function_name, v)]] }
  | none => .ok { cur_layer := 0, layers := [[]] }

/-- Modelled from the spec: after a call "only bindings for the function's
own enclosing name are reconciled back" (§4.5). -/
def Context.apply_fn_context (c : Context) (function_name : String)
    (inner : Context) : Except Failure Context :=
  match inner.try_get_var function_name with
  | some (_, v) => c.set_var function_name v
  | none => .ok c

/-- Modelled from the spec: the `Display` impl of `VariableValue` lives in
the absent `structs.rs`; the spec fixes only that `print` writes "argument
display forms". Number, Boolean and String forms are the evident ones; the
forms of composite values are unspecified and chosen arbitrarily here. -/
def display : VariableValue → String
  | .Unit => "()"
  | .Number n => toString n
  | .Boolean b => if b then "true" else "false"
  | .String s => s
  | .List _ => "[list]"
  | .Object _ => "[object]"
  | .Function _ _ => "[function]"

/-- Modelled from the spec: see `Slang.VariableValue.add`. -/
def VariableValue.add : VariableValue → VariableValue → Except Failure VariableValue
  | .Number a, .Number b => .ok (.Number (a + b))
  | _, _ => .error (.runtimeError "invalid operands")

/-- Modelled from the spec: see `Slang.VariableValue.add`. -/
def VariableValue.subtract : VariableValue → VariableValue → Except Failure VariableValue
  | .Number a, .Number b => .ok (.Number (a - b))
  | _, _ => .error (.runtimeError "invalid operands")

/-- Modelled from the spec: see `Slang.VariableValue.add`. -/
def VariableValue.multiply : VariableValue → VariableValue → Except Failure VariableValue
  | .Number a, .Number b => .ok (.Number (a * b))
  | _, _ => .error (.runtimeError "invalid operands")

/-- Modelled from the spec: see `Slang.VariableValue.add`. -/
def VariableValue.equals : VariableValue → VariableValue → Except Failure VariableValue
  | .Number a, .Number b => .ok (.Boolean (a = b))
  | .Boolean a, .Boolean b => .ok (.Boolean (a = b))
  | .String a, .String b => .ok (.Boolean (a = b))
  | _, _ => .error (.runtimeError "invalid operands")

/-- Modelled from the spec: see `Slang.VariableValue.add`. -/
def VariableValue.not_equals : VariableValue → VariableValue → Except Failure VariableValue
  | .Number a, .Number b => .ok (.Boolean (a ≠ b))
  | .Boolean a, .Boolean b => .ok (.Boolean (a ≠ b))
  | .String a, .String b => .ok (.Boolean (a ≠ b))
  | _, _ => .error (.runtimeError "invalid operands")

/-- Modelled from the spec: see `Slang.VariableValue.add`. -/
def VariableValue.less_than : VariableValue → VariableValue → Except Failure VariableValue
  | .Number a, .Number b => .ok (.Boolean (a < b))
  | _, _ => .error (.runtimeError "invalid operands")

/-- Modelled from the spec: see `Slang.VariableValue.add`. -/
def VariableValue.less_than_or_equal : VariableValue → VariableValue →
    Except Failure VariableValue
  | .Number a, .Number b => .ok (.Boolean (a ≤ b))
  | _, _ => .error (.runtimeError "invalid operands")

/-- Modelled from the spec: see `Slang.VariableValue.add`. -/
def VariableValue.greater_than : VariableValue → VariableValue → Except Failure VariableValue
  | .Number a, .Number b => .ok (.Boolean (b < a))
  | _, _ => .error (.runtimeError "invalid operands")

/-- Modelled from the spec: see `Slang.VariableValue.add`. -/
def VariableValue.greater_than_or_equal : VariableValue → VariableValue →
    Except Failure VariableValue
  | .Number a, .Number b => .ok (.Boolean (b ≤ a))
  | _, _ => .error (.runtimeError "invalid operands")

/-- Modelled from the spec: see `Slang.VariableValue.add`. -/
def VariableValue.not : VariableValue → Except Failure VariableValue
  | .Boolean a => .ok (.Boolean (!a))
  | _ => .error (.runtimeError "invalid operand")

/-- Modelled from the spec: see `Slang.VariableValue.add`. -/
def VariableValue.negate : VariableValue → Except Failure VariableValue
  | .Number a => .ok (.Number (-a))
  | _ => .error (.runtimeError "invalid operand")

/-- Modelled from the spec: see `Slang.VariableValue.add`. -/
def VariableValue.unary_plus : VariableValue → Except Failure VariableValue
  | .Number a => .ok (.Number a)
  | _ => .error (.runtimeError "invalid operand")

/-- `evaluate_binary_op` from `main.rs` (lines 169-186), over the AST of
this namespace. -/
def evaluate_binary_op (a b : VariableValue) (op : Operator) :
    Except Failure VariableValue :=
  match op with
  | .Add => VariableValue.add a b
  | .Subtract => VariableValue.subtract a b
  | .Multiply => VariableValue.multiply a b
  | .Equal => VariableValue.equals a b
  | .NotEqual => VariableValue.not_equals a b
  | .LessThan => VariableValue.less_than a b
  | .LessThanOrEqual => VariableValue.less_than_or_equal a b
  | .GreaterThan => VariableValue.greater_than a b
  | .GreaterThanOrEqual => VariableValue.greater_than_or_equal a b
  | _ => .error (.runtimeError "is not a binary operator!")

/-- `evaluate_unary_op` from `main.rs` (lines 188-195). -/
def evaluate_unary_op (a : VariableValue) (op : Operator) :
    Except Failure VariableValue :=
  match op with
  | .Not => VariableValue.not a
  | .Negate => VariableValue.negate a
  | .UnaryPlus => VariableValue.unary_plus a
  | _ => .error (.runtimeError "is not a unary operator!")

/-- The parameter-binding loop of `evaluate_expr`'s function-call arm
(`main.rs` lines 143-145): `for i in 0..values.len() {
inner_context.define_var(&args[i], values[i].clone())?; }`. The loop index
runs over `values`, and `args[i]` is an unchecked `Vec` index: when the
values outlast the parameter names the process panics with an
index-out-of-bounds, embedded as the `panicked` outcome. -/
def bind_params : Context → List String → List VariableValue →
    Except Failure Context
  | ctx, _, [] => .ok ctx
  | _, [], _ :: _ => .error (.panicked "index out of bounds")
  | ctx, a :: args_rest, v :: values_rest => do
    let ctx1 ← ctx.define_var a v
    bind_params ctx1 args_rest values_rest

/- The fueled evaluator of `main.rs`. The `&mut Context` and the process's
standard output are threaded explicitly: each function takes the context
and the output accumulated so far and returns both updated. The source's
unbounded `loop {}`s in the while/for statement arms are embedded as the
fuel-consuming helpers `while_loop` and `for_loop`. -/
mutual
/-- `evaluate_expr` from `main.rs` (lines 108-167). -/
def evaluate_expr : Nat → Context → String → Expression →
    Except Failure (VariableValue × Context × String)
  | 0, _, _, _ => .error .outOfFuel
  | fuel + 1, context, out, expr =>
    match expr with
    | .Value x => .ok (x, context, out)
    | .Block statements => do
      let inner ← context.create_block_context
      let (result, inner2, out1) ← execute_statements fuel inner out statements
      let context2 ← context.apply_block_context inner2
      .ok (result, context2, out1)
    | .BinaryOperator l r op => do
      let (lval, c1, o1) ← evaluate_expr fuel context out l
      let (rval, c2, o2) ← evaluate_expr fuel c1 o1 r
      let v ← evaluate_binary_op lval rval op
      .ok (v, c2, o2)
    | .UnaryOperator e op => do
      let (val, c1, o1) ← evaluate_expr fuel context out e
      let v ← evaluate_unary_op val op
      .ok (v, c1, o1)
    | .Reference var_name => do
      let v ← context.get_var var_name
      .ok (v, context, out)
    | .FunctionCall function_name params => do
      let (values, c1, o1) ← evaluate_args fuel context out params
      if function_name = "print" then
        let o2 := values.foldl (fun o val => o ++ display val ++ " ") o1
        .ok (.Unit, c1, o2 ++ "\n")
      else
        match c1.try_get_var function_name with
        | some (_, .Function args body) => do
          let inner ← c1.create_fn_context function_name
          let inner2 ← bind_params inner args values
          let (result, inner3, o2) ← evaluate_expr fuel inner2 o1 body
          let c2 ← c1.apply_fn_context function_name inner3
          .ok (result, c2, o2)
        | _ =>
          .error (.runtimeError
            ("Function '" ++ function_name ++ "' does not exist"))
    | .IfElse condition if_body maybe_else_body => do
      let (do_if, c1, o1) ← evaluate_expr fuel context out condition
      match do_if with
      | .Boolean true => evaluate_expr fuel c1 o1 if_body
      | _ =>
        match maybe_else_body with
        | some else_body => evaluate_expr fuel c1 o1 else_body
        | none => .ok (.Unit, c1, o1)
termination_by structural fuel => fuel

/-- The argument-evaluation loop of `evaluate_expr`'s function-call arm
(`main.rs` lines 129-132), left to right. -/
def evaluate_args : Nat → Context → String → List Expression →
    Except Failure (List VariableValue × Context × String)
  | _, context, out, [] => .ok ([], context, out)
  | 0, _, _, _ :: _ => .error .outOfFuel
  | fuel + 1, context, out, p :: rest => do
    let (v, c1, o1) ← evaluate_expr fuel context out p
    let (vs, c2, o2) ← evaluate_args fuel c1 o1 rest
    .ok (v :: vs, c2, o2)
termination_by structural fuel => fuel

/-- `execute_statements` from `main.rs` (lines 48-60): run statements in
order, short-circuiting on the first non-Unit result. -/
def execute_statements : Nat → Context → String → List Statement →
    Except Failure (VariableValue × Context × String)
  | _, context, out, [] => .ok (.Unit, context, out)
  | 0, _, _, _ :: _ => .error .outOfFuel
  | fuel + 1, context, out, statement :: rest => do
    let (r, c1, o1) ← execute_statement fuel context out statement
    match r with
    | .Unit => execute_statements fuel c1 o1 rest
    | result => .ok (result, c1, o1)
termination_by structural fuel => fuel

/-- `execute_statement` from `main.rs` (lines 62-106). -/
def execute_statement : Nat → Context → String → Statement →
    Except Failure (VariableValue × Context × String)
  | 0, _, _, _ => .error .outOfFuel
  | fuel + 1, context, out, statement =>
    match statement with
    | .Empty => .ok (.Unit, context, out)
    | .VariableDefinition s expr => do
      let (val, c1, o1) ← evaluate_expr fuel context out expr
      let c2 ← c1.define_var s val
      .ok (.Unit, c2, o1)
    | .ReturnStatement expr => evaluate_expr fuel context out expr
    | .ExpressionStatement expr => do
      let (_, c1, o1) ← evaluate_expr fuel context out expr
      .ok (.Unit, c1, o1)
    | .FunctionDefinition s params expr => do
      let c1 ← context.define_var s (.Function params expr)
      .ok (.Unit, c1, out)
    | .VariableAssignment s expr => do
      let (val, c1, o1) ← evaluate_expr fuel context out expr
      let c2 ← c1.set_var s val
      .ok (.Unit, c2, o1)
    | .WhileLoop condition body => do
      let (c2, o2) ← while_loop fuel context out condition body
      .ok (.Unit, c2, o2)
    | .ForLoop stmts condition body => do
      let (_, c1, o1) ← execute_statement fuel context out stmts.1
      let (c2, o2) ← for_loop fuel c1 o1 condition body stmts.2
      .ok (.Unit, c2, o2)
termination_by structural fuel => fuel

/-- The `loop {}` of `main.rs`'s `WhileLoop` arm (lines 83-90). -/
def while_loop : Nat → Context → String → Expression → Expression →
    Except Failure (Context × String)
  | 0, _, _, _, _ => .error .outOfFuel
  | fuel + 1, context, out, condition, body => do
    let (do_iter, c1, o1) ← evaluate_expr fuel context out condition
    match do_iter with
    | .Boolean true => do
      let (_, c2, o2) ← evaluate_expr fuel c1 o1 body
      while_loop fuel c2 o2 condition body
    | _ => .ok (c1, o1)
termination_by structural fuel => fuel

/-- The `loop {}` of `main.rs`'s `ForLoop` arm (lines 94-102). -/
def for_loop : Nat → Context → String → Expression → Expression → Statement →
    Except Failure (Context × String)
  | 0, _, _, _, _, _ => .error .outOfFuel
  | fuel + 1, context, out, condition, body, step => do
    let (do_iter, c1, o1) ← evaluate_expr fuel context out condition
    match do_iter with
    | .Boolean true => do
      let (_, c2, o2) ← evaluate_expr fuel c1 o1 body
      let (_, c3, o3) ← execute_statement fuel c2 o2 step
      for_loop fuel c3 o3 condition body step
    | _ => .ok (c1, o1)
termination_by structural fuel => fuel
end

end Structs


/-! ## Shared lemmas -/

/-- Binding after a successful `Except` computation runs the continuation. -/
theorem except_ok_bind {α β ε : Type} (x : α) (f : α → Except ε β) :
    (Except.ok x : Except ε α).bind f = f x := rfl

theorem opAt_cons_succ (x : PartialParsed) (rest : List PartialParsed)
    (j : Nat) (op : Operator) :
    opAt (x :: rest) (j + 1) op ↔ opAt rest j op := by
  simp [opAt]

theorem opAt_cons_zero (x : PartialParsed) (rest : List PartialParsed)
    (op : Operator) :
    opAt (x :: rest) 0 op ↔ x = .Token (.Operator op) := by
  simp [opAt]

/-- The scan of `get_expr` ignores every node that is not an operator
token. -/
theorem lowest_op_aux_cons_not_op (x : PartialParsed)
    (rest : List PartialParsed) (i : Nat) (acc : Option (Nat × Operator))
    (h : ∀ op0, x ≠ .Token (.Operator op0)) :
    lowest_op_aux (x :: rest) i acc = lowest_op_aux rest (i + 1) acc := by
  cases x with
  | Token tk => cases tk <;> first | rfl | exact absurd rfl (h _)
  | Braces inner => rfl
  | Parentheses inner => rfl
  | Brackets inner => rfl
  | Closure params => rfl

/-- Invariant of the lowest-precedence scan: starting at absolute index `i`
with accumulator `acc`, the result is either the untouched accumulator (and
then every operator of the remaining slice binds strictly tighter), or an
operator of the slice that is minimal among the slice's operators, strictly
below every operator to its right, and no looser than the accumulator. -/
theorem lowest_op_aux_spec (rest : List PartialParsed) :
    ∀ (i : Nat) (acc : Option (Nat × Operator)) (k : Nat) (op : Operator),
    lowest_op_aux rest i acc = some (k, op) →
    (acc = some (k, op) ∧
      (∀ j op', opAt rest j op' → op.precedence < op'.precedence))
    ∨ (∃ m, k = i + m ∧ opAt rest m op ∧
        (∀ j op', opAt rest j op' → op.precedence ≤ op'.precedence) ∧
        (∀ j op', m < j → opAt rest j op' → op.precedence < op'.precedence) ∧
        (∀ k' op'', acc = some (k', op'') → op.precedence ≤ op''.precedence)) := by
  induction rest with
  | nil =>
    intro i acc k op h
    exact .inl ⟨h, fun j op' hj => by simp [opAt] at hj⟩
  | cons x rest ih =>
    intro i acc k op h
    by_cases hop : ∃ op0, x = PartialParsed.Token (Token.Operator op0)
    · obtain ⟨op0, rfl⟩ := hop
      have hstep :
          (∃ j0 cur, acc = some (j0, cur) ∧ cur.precedence < op0.precedence ∧
            lowest_op_aux rest (i + 1) acc = some (k, op))
          ∨ ((∀ k' op'', acc = some (k', op'') →
                op0.precedence ≤ op''.precedence) ∧
            lowest_op_aux rest (i + 1) (some (i, op0)) = some (k, op)) := by
        rcases hacc : acc with _ | ⟨j0, cur⟩
        · subst hacc
          refine .inr ⟨?_, ?_⟩
          · intro k' op'' h'
            cases h'
          · simpa [lowest_op_aux] using h
        · subst hacc
          simp only [lowest_op_aux] at h
          by_cases hlt : cur.precedence < op0.precedence
          · exact .inl ⟨j0, cur, rfl, hlt, by simpa [hlt] using h⟩
          · refine .inr ⟨?_, ?_⟩
            · intro k' op'' h'
              cases h'
              omega
            · simpa [hlt] using h
      rcases hstep with ⟨j0, cur, hacc, hlt, h'⟩ | ⟨haccle, h'⟩
      · rcases ih (i + 1) acc k op h' with ⟨heq, hall⟩ | ⟨m, hk, hat, hmin, hlater, haccb⟩
        · left
          refine ⟨heq, fun j op' hj => ?_⟩
          match j with
          | 0 =>
            rw [opAt_cons_zero] at hj
            cases hj
            rw [hacc] at heq; cases heq
            exact hlt
          | j + 1 => exact hall j op' ((opAt_cons_succ _ _ _ _).mp hj)
        · right
          refine ⟨m + 1, by omega, (opAt_cons_succ _ _ _ _).mpr hat, ?_, ?_, ?_⟩
          · intro j op' hj
            match j with
            | 0 =>
              rw [opAt_cons_zero] at hj
              cases hj
              have := haccb j0 cur hacc
              omega
            | j + 1 => exact hmin j op' ((opAt_cons_succ _ _ _ _).mp hj)
          · intro j op' hmj hj
            match j with
            | 0 => omega
            | j + 1 => exact hlater j op' (by omega) ((opAt_cons_succ _ _ _ _).mp hj)
          · intro k' op'' hacc'
            exact haccb k' op'' hacc'
      · rcases ih (i + 1) (some (i, op0)) k op h' with ⟨heq, hall⟩ | ⟨m, hk, hat, hmin, hlater, haccb⟩
        · cases heq
          right
          refine ⟨0, by omega, (opAt_cons_zero _ _ _).mpr rfl, ?_, ?_, haccle⟩
          · intro j op' hj
            match j with
            | 0 => rw [opAt_cons_zero] at hj; cases hj; omega
            | j + 1 => exact le_of_lt (hall j op' ((opAt_cons_succ _ _ _ _).mp hj))
          · intro j op' hmj hj
            match j with
            | 0 => omega
            | j + 1 => exact hall j op' ((opAt_cons_succ _ _ _ _).mp hj)
        · right
          have hle0 : op.precedence ≤ op0.precedence := haccb i op0 rfl
          refine ⟨m + 1, by omega, (opAt_cons_succ _ _ _ _).mpr hat, ?_, ?_, ?_⟩
          · intro j op' hj
            match j with
            | 0 => rw [opAt_cons_zero] at hj; cases hj; exact hle0
            | j + 1 => exact hmin j op' ((opAt_cons_succ _ _ _ _).mp hj)
          · intro j op' hmj hj
            match j with
            | 0 => omega
            | j + 1 => exact hlater j op' (by omega) ((opAt_cons_succ _ _ _ _).mp hj)
          · intro k' op'' hacc'
            exact le_trans hle0 (haccle k' op'' hacc')
    · push_neg at hop
      rw [lowest_op_aux_cons_not_op x rest i acc hop] at h
      rcases ih (i + 1) acc k op h with ⟨heq, hall⟩ | ⟨m, hk, hat, hmin, hlater, haccb⟩
      · left
        refine ⟨heq, fun j op' hj => ?_⟩
        match j with
        | 0 => rw [opAt_cons_zero] at hj; exact absurd hj (hop op')
        | j + 1 => exact hall j op' ((opAt_cons_succ _ _ _ _).mp hj)
      · right
        refine ⟨m + 1, by omega, (opAt_cons_succ _ _ _ _).mpr hat, ?_, ?_, haccb⟩
        · intro j op' hj
          match j with
          | 0 => rw [opAt_cons_zero] at hj; exact absurd hj (hop op')
          | j + 1 => exact hmin j op' ((opAt_cons_succ _ _ _ _).mp hj)
        · intro j op' hmj hj
          match j with
          | 0 => omega
          | j + 1 => exact hlater j op' (by omega) ((opAt_cons_succ _ _ _ _).mp hj)

/-- One-step computation rule of `get_statements`. -/
theorem get_statements_succ (fuel : Nat) (t : List PartialParsed) :
    get_statements (fuel + 1) t =
      (stmnts_of_segments fuel
        ((split_at_seps (fun tkn => tkn matches .Token .Semicolon) t).filter
          (fun s => !s.isEmpty))).bind
        (fun statements =>
          match t.getLast? with
          | some (.Token .Semicolon) => .ok statements
          | _ =>
            match statements.getLast? with
            | some (.Expr last_expr) =>
              .ok (statements.dropLast ++ [.ImplicitReturn last_expr])
            | some _ => .ok statements
            | none => .error (.err "empty block!")) := by
  simp only [get_statements]
  rfl

/-- Parsing an empty segment list yields no statements, for any fuel. -/
theorem stmnts_of_segments_nil (fuel : Nat) :
    stmnts_of_segments fuel [] = .ok [] := by
  cases fuel <;> rfl

/-- One-step computation rule of `eval_expr` on an `IfElse` node. -/
theorem eval_expr_ifelse_succ (fuel : Nat) (vars : Store)
    (cond_expr if_expr : Expression) (else_expr : Option Expression) :
    eval_expr (fuel + 1) vars (.IfElse cond_expr if_expr else_expr) =
      (eval_expr fuel vars cond_expr).bind
        (fun c =>
          match c with
          | .Boolean cond =>
            if cond then eval_expr fuel vars if_expr
            else
              match else_expr with
              | some e => eval_expr fuel vars e
              | none => .ok .Unit
          | _ => .error (.runtimeError "condition is not a boolean")) := by
  simp only [eval_expr]
  rfl

theorem foldl_string_append (l : List String) :
    ∀ (a b : String), l.foldl (fun r s => r ++ s) (a ++ b)
      = a ++ l.foldl (fun r s => r ++ s) b := by
  induction l with
  | nil => intro a b; rfl
  | cons c cs ih =>
    intro a b
    simp only [List.foldl_cons]
    rw [String.append_assoc, ih]

theorem string_join_cons (s : String) (l : List String) :
    String.join (s :: l) = s ++ String.join l := by
  show List.foldl (fun r s => r ++ s) ("" ++ s) l
    = s ++ List.foldl (fun r s => r ++ s) "" l
  rw [String.empty_append, show s = s ++ "" from (String.append_empty s).symm,
    foldl_string_append]
  simp [String.append_empty]

/-- The output of `main.rs`'s print loop (`print!("{} ", val)` per value):
each display form is followed by one space. -/
theorem foldl_display_append (values : List Structs.VariableValue) (o : String) :
    values.foldl (fun acc val => acc ++ Structs.display val ++ " ") o
      = o ++ String.join (values.map (fun v => Structs.display v ++ " ")) := by
  induction values generalizing o with
  | nil =>
    show o = o ++ String.join []
    simp [String.join]
  | cons v vs ih =>
    show List.foldl (fun acc val => acc ++ Structs.display val ++ " ")
      (o ++ Structs.display v ++ " ") vs = _
    rw [ih (o ++ Structs.display v ++ " "), List.map_cons, string_join_cons]
    simp [String.append_assoc]

/-- One-step computation rule of `evaluate_expr` on a call of the built-in
`print`. -/
theorem evaluate_expr_print_succ (fuel : Nat) (context : Structs.Context)
    (out : String) (params : List Structs.Expression) :
    Structs.evaluate_expr (fuel + 1) context out (.FunctionCall "print" params) =
      (Structs.evaluate_args fuel context out params).bind
        (fun r =>
          .ok (.Unit, r.2.1,
            (r.1.foldl (fun o val => o ++ Structs.display val ++ " ") r.2.2)
              ++ "\n")) := by
  simp only [Structs.evaluate_expr]
  rfl

/-! ## The claims -/

/-- C1, counterexample: in the slice `10 - 3 - 2` the two top-level `-`
tokens (indices 1 and 3) share the lowest precedence, yet the scan of
`get_expr` picks index 3 — the rightmost, not the leftmost — and `get_expr`
accordingly splits there, producing the left-associated tree. -/
theorem c1_counterexample_split_is_rightmost :
    lowest_op_scan
      [.Token (.Value (.Number 10)), .Token (.Operator .Subtract),
       .Token (.Value (.Number 3)), .Token (.Operator .Subtract),
       .Token (.Value (.Number 2))]
      = some (3, .Subtract)
    ∧ get_expr 9
      [.Token (.Value (.Number 10)), .Token (.Operator .Subtract),
       .Token (.Value (.Number 3)), .Token (.Operator .Subtract),
       .Token (.Value (.Number 2))]
      = .ok (.BinaryOperator
          (.BinaryOperator (.Value (.Number 10)) (.Value (.Number 3)) .Subtract)
          (.Value (.Number 2)) .Subtract) :=
  ⟨rfl, rfl⟩

/-- C1, amended: when the operator split of `get_expr` (`parser.rs` lines
379-392) selects an occurrence, that occurrence is a top-level operator
token of minimal precedence, and every operator strictly to its right binds
strictly tighter — i.e. among several minimal-precedence operators the
LAST (rightmost) occurrence wins, not the first; combined with recursion
this yields the left-associative grouping the spec describes. -/
theorem c1_lowest_op_scan_picks_last_minimal (t : List PartialParsed)
    (k : Nat) (op : Operator) (h : lowest_op_scan t = some (k, op)) :
    opAt t k op
    ∧ (∀ j op', opAt t j op' → op.precedence ≤ op'.precedence)
    ∧ (∀ j op', k < j → opAt t j op' → op.precedence < op'.precedence) := by
  rcases lowest_op_aux_spec t 0 none k op h with ⟨heq, _⟩ | ⟨m, hk, hat, hmin, hlater, _⟩
  · cases heq
  · subst hk
    simpa using ⟨hat, hmin, hlater⟩

/-- C1, witness for the amended theorem at the `10 - 3 - 2` slice. -/
theorem c1_lowest_op_scan_picks_last_minimal_witness :
    opAt
      [.Token (.Value (.Number 10)), .Token (.Operator .Subtract),
       .Token (.Value (.Number 3)), .Token (.Operator .Subtract),
       .Token (.Value (.Number 2))] 3 .Subtract :=
  (c1_lowest_op_scan_picks_last_minimal
    [.Token (.Value (.Number 10)), .Token (.Operator .Subtract),
     .Token (.Value (.Number 3)), .Token (.Operator .Subtract),
     .Token (.Value (.Number 2))] 3 .Subtract rfl).1

/-- C2, counterexample: the entry-point evaluator (`main.rs`
`evaluate_expr`, lines 156-165) does NOT fail on a non-Boolean condition —
`if let Boolean(true)` treats the Number condition like false and, with no
else arm, yields Unit with no output. -/
theorem c2_counterexample_main_evaluator_nonbool_yields_unit :
    Structs.evaluate_expr 3 ⟨0, [[]]⟩ ""
      (.IfElse (.Value (.Number 1)) (.Value (.Number 2)) none)
      = .ok (.Unit, ⟨0, [[]]⟩, "") :=
  rfl

/-- C2, amended: in the flat-store evaluator (`executor.rs` `eval_expr`,
lines 58-64) the claim holds: whenever the condition of an `IfElse`
evaluates successfully to a value that is not a Boolean, evaluation returns
the runtime error "condition is not a boolean"; the entry-point evaluator
of `main.rs` instead selects the else arm or yields Unit (see the
counterexample). -/
theorem c2_executor_nonbool_condition_is_runtime_error (fuel : Nat)
    (vars : Store) (cond_expr if_expr : Expression)
    (else_expr : Option Expression) (v : VariableValue)
    (hc : eval_expr fuel vars cond_expr = .ok v)
    (hb : ∀ b, v ≠ .Boolean b) :
    eval_expr (fuel + 1) vars (.IfElse cond_expr if_expr else_expr)
      = .error (.runtimeError "condition is not a boolean") := by
  rw [eval_expr_ifelse_succ, hc]
  match v, hb with
  | .Unit, _ => rfl
  | .Number n, _ => rfl
  | .Boolean b, hb => exact absurd rfl (hb b)
  | .String s, _ => rfl
  | .List l, _ => rfl
  | .Object f, _ => rfl
  | .Function p b, _ => rfl

/-- C2, witness: a Number condition makes the flat-store evaluator fail. -/
theorem c2_executor_nonbool_condition_is_runtime_error_witness :
    eval_expr 2 [] (.IfElse (.Value (.Number 0)) (.Value .Unit) none)
      = .error (.runtimeError "condition is not a boolean") :=
  c2_executor_nonbool_condition_is_runtime_error 1 [] _ _ none (.Number 0) rfl
    (fun _ h => VariableValue.noConfusion h)

/-- C3: `10 - 3 - 2` parses to the left-associated tree `(10 - 3) - 2` and
evaluates to Number 5 — and 5 is not 9, which the right-associated reading
would give. -/
theorem c3_left_associativity_10_minus_3_minus_2 :
    get_expr 9
      [.Token (.Value (.Number 10)), .Token (.Operator .Subtract),
       .Token (.Value (.Number 3)), .Token (.Operator .Subtract),
       .Token (.Value (.Number 2))]
      = .ok (.BinaryOperator
          (.BinaryOperator (.Value (.Number 10)) (.Value (.Number 3)) .Subtract)
          (.Value (.Number 2)) .Subtract)
    ∧ eval_expr 9 []
        (.BinaryOperator
          (.BinaryOperator (.Value (.Number 10)) (.Value (.Number 3)) .Subtract)
          (.Value (.Number 2)) .Subtract)
      = .ok (.Number 5)
    ∧ (VariableValue.Number 5 ≠ VariableValue.Number 9) :=
  ⟨rfl, rfl, by simp⟩

/-- C4, counterexample: a block consisting of a single semicolon splits into
zero statements, ends in a separator, and `get_statements` returns the
EMPTY statement list successfully instead of a syntax failure. -/
theorem c4_counterexample_lone_semicolon_ok_empty :
    get_statements 5 [.Token .Semicolon] = .ok [] :=
  rfl

/-- C4, amended: when splitting yields zero statements, `get_statements`
fails with "empty block!" only if the node sequence does not end in a
semicolon token; a separator-terminated sequence returns the empty list. -/
theorem c4_empty_block_failure_iff_no_trailing_semicolon (fuel : Nat)
    (t : List PartialParsed)
    (h : ((split_at_seps (fun tkn => tkn matches .Token .Semicolon) t).filter
      (fun s => !s.isEmpty)) = []) :
    (t.getLast? = some (.Token .Semicolon) → get_statements (fuel + 1) t = .ok [])
    ∧ (t.getLast? ≠ some (.Token .Semicolon) →
        get_statements (fuel + 1) t = .error (.err "empty block!")) := by
  rw [get_statements_succ, h, stmnts_of_segments_nil]
  refine ⟨?_, ?_⟩
  · intro hlast
    rw [show ∀ (f : List Statement → Except SyntaxError (List Statement)),
      (Except.ok ([] : List Statement)).bind f = f [] from fun _ => rfl]
    rw [hlast]
  · intro hlast
    rw [show ∀ (f : List Statement → Except SyntaxError (List Statement)),
      (Except.ok ([] : List Statement)).bind f = f [] from fun _ => rfl]
    split
    · next heq => exact absurd heq hlast
    · rfl

/-- C4, witness: the empty node sequence is a syntax failure. -/
theorem c4_empty_block_failure_iff_no_trailing_semicolon_witness :
    get_statements 1 [] = .error (.err "empty block!") :=
  (c4_empty_block_failure_iff_no_trailing_semicolon 0 [] rfl).2 (by simp)

/-- C5: given the raw per-segment parse of a block, `get_statements`
returns it unchanged when the node sequence ends in a semicolon token;
otherwise it reclassifies exactly the last statement as `ImplicitReturn`
if and only if that statement is a plain `Expr`, leaving every other kind
unchanged. -/
theorem c5_implicit_return_reclassification (fuel : Nat)
    (t : List PartialParsed) (raw : List Statement)
    (h : stmnts_of_segments fuel
      ((split_at_seps (fun tkn => tkn matches .Token .Semicolon) t).filter
        (fun s => !s.isEmpty)) = .ok raw) :
    (t.getLast? = some (.Token .Semicolon) → get_statements (fuel + 1) t = .ok raw)
    ∧ (t.getLast? ≠ some (.Token .Semicolon) → ∀ e, raw.getLast? = some (.Expr e) →
        get_statements (fuel + 1) t = .ok (raw.dropLast ++ [.ImplicitReturn e]))
    ∧ (t.getLast? ≠ some (.Token .Semicolon) → ∀ s, raw.getLast? = some s →
        (∀ e, s ≠ .Expr e) → get_statements (fuel + 1) t = .ok raw) := by
  rw [get_statements_succ, h]
  refine ⟨?_, ?_, ?_⟩
  · intro hlast
    rw [show ∀ (f : List Statement → Except SyntaxError (List Statement)),
      (Except.ok raw).bind f = f raw from fun _ => rfl]
    rw [hlast]
  · intro hlast e hle
    rw [show ∀ (f : List Statement → Except SyntaxError (List Statement)),
      (Except.ok raw).bind f = f raw from fun _ => rfl]
    split
    · next heq => exact absurd heq hlast
    · rw [hle]
  · intro hlast s hls hne
    rw [show ∀ (f : List Statement → Except SyntaxError (List Statement)),
      (Except.ok raw).bind f = f raw from fun _ => rfl]
    split
    · next heq => exact absurd heq hlast
    · rw [hls]
      match s, hne with
      | .VariableDefinition n e, _ => rfl
      | .VariableAssignment r e, _ => rfl
      | .Expr e, hne => exact absurd rfl (hne e)
      | .Return e, _ => rfl
      | .Break e, _ => rfl
      | .Continue, _ => rfl
      | .ImplicitReturn e, _ => rfl

/-- C5, witness: a block holding one bare value expression and no trailing
semicolon gets its statement reclassified as `ImplicitReturn`. -/
theorem c5_implicit_return_reclassification_witness :
    get_statements 4 [.Token (.Value (.Number 7))]
      = .ok [.ImplicitReturn (.Value (.Number 7))] :=
  (c5_implicit_return_reclassification 3 [.Token (.Value (.Number 7))]
      [.Expr (.Value (.Number 7))] rfl).2.1
    (by simp) (.Value (.Number 7)) rfl

/-- C6: existence guards point in opposite directions.
`define_var_by_val` fails ("Variable is already defined") and leaves the
store untouched when the name exists, and inserts the binding returning
Unit when it does not; `assign_var` on a plain variable name fails
("Variable is not defined") and leaves the store untouched when the name
is absent, and overwrites the binding returning Unit when it is present. -/
theorem c6_define_assign_existence_guards :
    (∀ (s : Store) (var : String) (val : VariableValue),
      s.contains_key var = true →
      define_var_by_val s var val
        = (s, .error (.runtimeError "Variable is already defined")))
    ∧ (∀ (s : Store) (var : String) (val : VariableValue),
      s.contains_key var = false →
      define_var_by_val s var val = (s.insert var val, .ok .Unit))
    ∧ (∀ (fuel : Nat) (s : Store) (var : String) (expr : Expression)
        (val : VariableValue),
      eval_expr fuel s expr = .ok val → s.contains_key var = false →
      assign_var fuel s (.Variable var) expr
        = (s, .error (.runtimeError "Variable is not defined")))
    ∧ (∀ (fuel : Nat) (s : Store) (var : String) (expr : Expression)
        (val : VariableValue),
      eval_expr fuel s expr = .ok val → s.contains_key var = true →
      assign_var fuel s (.Variable var) expr = (s.insert var val, .ok .Unit)) := by
  refine ⟨?_, ?_, ?_, ?_⟩
  · intro s var val hc
    simp [define_var_by_val, hc]
  · intro s var val hc
    simp [define_var_by_val, hc]
  · intro fuel s var expr val he hc
    simp only [assign_var, he]
    simp [hc]
  · intro fuel s var expr val he hc
    simp only [assign_var, he]
    simp [hc]

/-- C6, witness: redefining `x` fails leaving the store unchanged, and
assigning to the absent `y` fails leaving the store unchanged. -/
theorem c6_define_assign_existence_guards_witness :
    define_var_by_val [("x", .Number 1)] "x" (.Number 2)
      = ([("x", .Number 1)], .error (.runtimeError "Variable is already defined"))
    ∧ assign_var 1 [] (.Variable "y") (.Value (.Number 3))
      = ([], .error (.runtimeError "Variable is not defined")) :=
  ⟨c6_define_assign_existence_guards.1 [("x", .Number 1)] "x" (.Number 2) rfl,
   c6_define_assign_existence_guards.2.2.1 1 [] "y" (.Value (.Number 3))
     (.Number 3) rfl rfl⟩

/-- C7: the single depth counter matches delimiters across kinds —
`([{}])` reduces into properly nested group nodes, while the crossed
`([)]` fails with the unmatched-delimiter syntax error. -/
theorem c7_delimiter_matching_across_kinds :
    reduce_brackets_and_parenths
      [.OpeningParethesis, .OpeningBracket, .OpeningBrace, .ClosingBrace,
       .ClosingBracket, .ClosingParethesis]
      = .ok [.Parentheses [.Brackets [.Braces []]]]
    ∧ reduce_brackets_and_parenths
      [.OpeningParethesis, .OpeningBracket, .ClosingParethesis, .ClosingBracket]
      = .error (.err "No matching closing parenthesis!") := by
  constructor <;>
    simp [reduce_brackets_and_parenths, find_matching, find_matching_aux,
      Token.indent_delta, Bind.bind, Except.bind]

/-- C8, counterexample: `print(1, 2)` writes "1 2 \n" — each display form
is followed by a space, leaving a trailing space before the newline — which
differs from the claimed exactly-space-separated "1 2\n". -/
theorem c8_counterexample_trailing_space_before_newline :
    Structs.evaluate_expr 9 ⟨0, [[]]⟩ ""
      (.FunctionCall "print" [.Value (.Number 1), .Value (.Number 2)])
      = .ok (.Unit, ⟨0, [[]]⟩, "1 2 \n")
    ∧ "1 2 \n" ≠ "1 2\n" :=
  ⟨rfl, by decide⟩

/-- C8, amended: a call of the built-in `print` whose arguments evaluate to
`values` appends to standard output each value's display form followed by
one space, then a newline (so values are space-separated but a trailing
space precedes the newline), and yields Unit. -/
theorem c8_print_writes_display_forms_each_followed_by_space (fuel : Nat)
    (context : Structs.Context) (out : String)
    (params : List Structs.Expression) (values : List Structs.VariableValue)
    (c1 : Structs.Context) (o1 : String)
    (h : Structs.evaluate_args fuel context out params = .ok (values, c1, o1)) :
    Structs.evaluate_expr (fuel + 1) context out (.FunctionCall "print" params)
      = .ok (.Unit, c1,
          o1 ++ String.join (values.map (fun v => Structs.display v ++ " "))
            ++ "\n") := by
  rw [evaluate_expr_print_succ, h, except_ok_bind]
  simp only [foldl_display_append]

/-- C8, witness: printing the single Number 1. -/
theorem c8_print_writes_display_forms_each_followed_by_space_witness :
    Structs.evaluate_expr 3 ⟨0, [[]]⟩ ""
      (.FunctionCall "print" [.Value (.Number 1)])
      = .ok (.Unit, ⟨0, [[]]⟩,
          "" ++ String.join ([Structs.VariableValue.Number 1].map
            (fun v => Structs.display v ++ " ")) ++ "\n") :=
  c8_print_writes_display_forms_each_followed_by_space 2 ⟨0, [[]]⟩ ""
    [.Value (.Number 1)] [.Number 1] ⟨0, [[]]⟩ "" rfl

/-- C9: the parameter-binding loop of `main.rs`'s function-call evaluation
runs over the argument values and indexes the parameter-name list without a
bounds check: with more values than names (and the named prefix binding
successfully) it panics with an index-out-of-bounds — a process abort, not
a returned RuntimeError — while with fewer values than names the surplus
names are silently never touched (binding behaves as if only the consumed
prefix of the parameter list existed). -/
theorem c9_param_binding_panic_and_silent_unbound (args : List String) :
    (∀ (ctx ctx' : Structs.Context) (values : List Structs.VariableValue),
      args.length < values.length →
      Structs.bind_params ctx args (values.take args.length) = .ok ctx' →
      Structs.bind_params ctx args values
        = .error (.panicked "index out of bounds"))
    ∧ (∀ (ctx : Structs.Context) (values : List Structs.VariableValue),
      values.length ≤ args.length →
      Structs.bind_params ctx args values
        = Structs.bind_params ctx (args.take values.length) values) := by
  constructor
  · induction args with
    | nil =>
      intro ctx ctx' values hlen _
      match values, hlen with
      | v :: vs, _ => rfl
    | cons a rest ih =>
      intro ctx ctx' values hlen hpre
      match values, hlen with
      | v :: vs, hlen =>
        simp only [List.length_cons, List.take_succ_cons] at hpre ⊢
        simp only [Structs.bind_params] at hpre ⊢
        match hdef : ctx.define_var a v with
        | .error e =>
          rw [hdef] at hpre
          exact Except.noConfusion hpre
        | .ok ctx1 =>
          rw [hdef] at hpre
          replace hpre : Structs.bind_params ctx1 rest (List.take rest.length vs)
            = .ok ctx' := hpre
          show Structs.bind_params ctx1 rest vs
            = .error (.panicked "index out of bounds")
          exact ih ctx1 ctx' vs (by simpa using hlen) hpre
  · induction args with
    | nil =>
      intro ctx values hlen
      match values, hlen with
      | [], _ => rfl
    | cons a rest ih =>
      intro ctx values hlen
      match values with
      | [] => rfl
      | v :: vs =>
        simp only [List.length_cons, List.take_succ_cons]
        simp only [Structs.bind_params]
        match hdef : ctx.define_var a v with
        | .error e => rfl
        | .ok ctx1 =>
          show Structs.bind_params ctx1 rest vs
            = Structs.bind_params ctx1 (List.take vs.length rest) vs
          exact ih ctx1 vs (by simpa using hlen)

/-- C9, witness: one parameter name, two argument values — the loop panics
after binding the first value. -/
theorem c9_param_binding_panic_and_silent_unbound_witness :
    Structs.bind_params ⟨0, [[]]⟩ ["a"] [.Number 1, .Number 2]
      = .error (.panicked "index out of bounds") :=
  (c9_param_binding_panic_and_silent_unbound ["a"]).1 ⟨0, [[]]⟩
    ⟨0, [[("a", .Number 1)]]⟩ [.Number 1, .Number 2] (by decide) rfl

/-- C10, counterexample: the sequence `) (` contains a stray closing
parenthesis with no unclosed opener before it, yet
`reduce_brackets_and_parenths` does not succeed on it — the later unmatched
opener makes the whole reduction fail. -/
theorem c10_counterexample_stray_closer_sequence_can_fail :
    reduce_brackets_and_parenths [.ClosingParethesis, .OpeningParethesis]
      = .error (.err "No matching closing parenthesis!") := by
  simp [reduce_brackets_and_parenths, find_matching, find_matching_aux,
    Token.indent_delta, Bind.bind, Except.bind]

/-- C10, amended: a stray closing delimiter is never itself rejected — any
token sequence free of opening delimiters and closure bars (stray closers
included) reduces successfully, every token emitted as a raw `Token` node;
a syntax failure arises only from an opening delimiter or closure bar
without its closer, as in the counterexample. -/
theorem c10_no_openers_reduce_emits_raw_tokens (t : List Token)
    (h : ∀ tok ∈ t, tok ≠ .OpeningParethesis ∧ tok ≠ .OpeningBrace ∧
      tok ≠ .OpeningBracket ∧ tok ≠ .VerticalBar) :
    reduce_brackets_and_parenths t = .ok (t.map .Token) := by
  induction t with
  | nil => simp [reduce_brackets_and_parenths]
  | cons tk rest ih =>
    have htk := h tk (by simp)
    have hrest : ∀ tok ∈ rest, tok ≠ .OpeningParethesis ∧ tok ≠ .OpeningBrace ∧
        tok ≠ .OpeningBracket ∧ tok ≠ .VerticalBar :=
      fun tok htok => h tok (by simp [htok])
    cases tk <;> simp_all [reduce_brackets_and_parenths, Bind.bind, Except.bind]

/-- C10, witness: two stray closers of different kinds reduce to raw token
nodes. -/
theorem c10_no_openers_reduce_emits_raw_tokens_witness :
    reduce_brackets_and_parenths [.ClosingBrace, .ClosingParethesis]
      = .ok [.Token .ClosingBrace, .Token .ClosingParethesis] :=
  c10_no_openers_reduce_emits_raw_tokens [.ClosingBrace, .ClosingParethesis]
    (by intro tok htok; simp at htok; rcases htok with rfl | rfl <;> simp)

end Slang
